import Mathlib

/- Verification development for the DinoAir repository's responsive
breakpoint hook, `src/src/hooks/useResponsive.ts`.  The pure parts of the
hook (the breakpoint table and the derived queries) are embedded as Lean
functions over an explicit `Dimensions` record; the stateful lifecycle
(mount effect, resize listener, cleanup) is embedded as a step function on
an explicit world state. -/
namespace DinoAir

/-- Breakpoint names: the keys of the `BREAKPOINTS` table in the source. -/
inductive BreakpointName
  | mobile
  | tablet
  | desktop
  | wide
deriving DecidableEq

/-- The breakpoint threshold table from the source:
`BREAKPOINTS = { mobile: 768, tablet: 1024, desktop: 1280, wide: 1536 }`. -/
def BREAKPOINTS : BreakpointName → Int
  | .mobile => 768
  | .tablet => 1024
  | .desktop => 1280
  | .wide => 1536

/-- An argument of the TypeScript union type `BreakpointName | number`. -/
inductive BreakpointArg
  | name (b : BreakpointName)
  | px (n : Int)
deriving DecidableEq

/-- `getBreakpointValue`: a number passes through unchanged, a name is
looked up in `BREAKPOINTS`. -/
def getBreakpointValue : BreakpointArg → Int
  | .px n => n
  | .name b => BREAKPOINTS b

/-- The `dimensions` state of the hook: `{ width, height }`. -/
structure Dimensions where
  width : Int
  height : Int
deriving DecidableEq

/-- `isBelow`: `dimensions.width < getBreakpointValue(breakpoint)`. -/
def isBelow (d : Dimensions) (b : BreakpointArg) : Bool :=
  decide (d.width < getBreakpointValue b)

/-- `isAbove`: `dimensions.width >= getBreakpointValue(breakpoint)`. -/
def isAbove (d : Dimensions) (b : BreakpointArg) : Bool :=
  decide (d.width ≥ getBreakpointValue b)

/-- `isBetween`: `width >= minValue && width < maxValue`. -/
def isBetween (d : Dimensions) (bmin bmax : BreakpointArg) : Bool :=
  decide (d.width ≥ getBreakpointValue bmin) && decide (d.width < getBreakpointValue bmax)

/-- The `breakpoint` memo: testing the thresholds in ascending order. -/
def breakpoint (d : Dimensions) : BreakpointName :=
  if d.width < BREAKPOINTS .mobile then .mobile
  else if d.width < BREAKPOINTS .tablet then .tablet
  else if d.width < BREAKPOINTS .desktop then .desktop
  else .wide

/-- The `isMobile` memo: `width < BREAKPOINTS.mobile`. -/
def isMobile (d : Dimensions) : Bool :=
  decide (d.width < BREAKPOINTS .mobile)

/-- The `isTablet` memo: `width >= BREAKPOINTS.mobile && width < BREAKPOINTS.tablet`. -/
def isTablet (d : Dimensions) : Bool :=
  decide (d.width ≥ BREAKPOINTS .mobile) && decide (d.width < BREAKPOINTS .tablet)

/-- The `isDesktop` memo: `width >= BREAKPOINTS.tablet && width < BREAKPOINTS.desktop`. -/
def isDesktop (d : Dimensions) : Bool :=
  decide (d.width ≥ BREAKPOINTS .tablet) && decide (d.width < BREAKPOINTS .desktop)

/-- The `isWide` memo: `width >= BREAKPOINTS.desktop`. -/
def isWide (d : Dimensions) : Bool :=
  decide (d.width ≥ BREAKPOINTS .desktop)

/-- The record returned by the hook (`UseResponsiveReturn`); function-valued
fields embed the callback members. -/
structure UseResponsiveReturn where
  width : Int
  height : Int
  isMobile : Bool
  isTablet : Bool
  isDesktop : Bool
  isWide : Bool
  isBelow : BreakpointArg → Bool
  isAbove : BreakpointArg → Bool
  isBetween : BreakpointArg → BreakpointArg → Bool
  breakpoint : BreakpointName

/-- The value `useResponsive` returns for a given stored `dimensions`. -/
def useResponsive (d : Dimensions) : UseResponsiveReturn where
  width := d.width
  height := d.height
  isMobile := isMobile d
  isTablet := isTablet d
  isDesktop := isDesktop d
  isWide := isWide d
  isBelow := isBelow d
  isAbove := isAbove d
  isBetween := isBetween d
  breakpoint := breakpoint d

/-- Numeric index of a tier in the order mobile < tablet < desktop < wide. -/
def tierIdx : BreakpointName → Nat
  | .mobile => 0
  | .tablet => 1
  | .desktop => 2
  | .wide => 3

/-- The initial `useState` value of the hook: `{ width: 0, height: 0 }`. -/
def initialDimensions : Dimensions := ⟨0, 0⟩

/-- The host window: a synchronously readable size
(`window.innerWidth` / `window.innerHeight`). -/
structure Env where
  innerWidth : Int
  innerHeight : Int
deriving DecidableEq

/-- World state of one hook instance: the window, the stored `dimensions`,
and how many resize listeners the hook currently has registered on the
window (`listeners`). -/
structure HookWorld where
  env : Env
  dims : Dimensions
  listeners : Nat
deriving DecidableEq

/-- `handleResize`: overwrite the stored `dimensions` with the window's
current size, both fields at once. -/
def handleResize (s : HookWorld) : HookWorld :=
  { s with dims := ⟨s.env.innerWidth, s.env.innerHeight⟩ }

/-- Events in the life of one hook instance.  `effectMount` is the
`useEffect` body running when the owning component mounts: it calls
`handleResize()` and then `addEventListener('resize', handleResize)`.
`rerender` is a re-render of the owning component: `handleResize` comes
from `useCallback` with an empty dependency list, so its identity is
stable, the effect's dependency array `[handleResize]` is unchanged, and
the effect does not re-run — no new subscription is made.  `envResize`
is the window changing size and firing its `resize` event to the
registered listeners, if any.  `cleanup` is the effect cleanup on
unmount: `removeEventListener('resize', handleResize)`. -/
inductive HookEvent
  | effectMount
  | rerender
  | envResize (w h : Int)
  | cleanup
deriving DecidableEq

/-- One step of the lifecycle model. -/
def step (s : HookWorld) : HookEvent → HookWorld
  | .effectMount =>
      let s1 := handleResize s
      { s1 with listeners := s1.listeners + 1 }
  | .rerender => s
  | .envResize w h =>
      let s1 := { s with env := ⟨w, h⟩ }
      if s1.listeners > 0 then handleResize s1 else s1
  | .cleanup => { s with listeners := s.listeners - 1 }

/-- Run a list of events from a state. -/
def runEvents (s : HookWorld) (l : List HookEvent) : HookWorld :=
  l.foldl step s

/-- The world right after `useState` initialises `dimensions` to
`{width: 0, height: 0}`, before the mount effect runs: no listener yet. -/
def initWorld (e : Env) : HookWorld :=
  { env := e, dims := initialDimensions, listeners := 0 }

/-- Events that neither mount nor unmount the hook: re-renders of the
owning component and window resizes. -/
def passive : HookEvent → Bool
  | .rerender => true
  | .envResize _ _ => true
  | _ => false

/-- Passive events never change the listener count. -/
lemma listeners_runEvents_passive (l : List HookEvent) :
    ∀ s : HookWorld, (∀ e ∈ l, passive e = true) →
      (runEvents s l).listeners = s.listeners := by
  induction l with
  | nil => intro s _; rfl
  | cons e t ih =>
      intro s h
      have he : passive e = true := h e (by simp)
      have ht : ∀ x ∈ t, passive x = true := fun x hx => h x (by simp [hx])
      cases e with
      | rerender => simpa [runEvents, step] using ih s ht
      | envResize w hh =>
          by_cases hl : s.listeners > 0 <;>
            simpa [runEvents, step, handleResize, hl] using ih _ ht
      | effectMount => simp [passive] at he
      | cleanup => simp [passive] at he

/-- With no listener registered, passive events never change the stored
dimensions. -/
lemma dims_runEvents_passive_zero (l : List HookEvent) :
    ∀ s : HookWorld, (∀ e ∈ l, passive e = true) → s.listeners = 0 →
      (runEvents s l).dims = s.dims := by
  induction l with
  | nil => intro s _ _; rfl
  | cons e t ih =>
      intro s h h0
      have he : passive e = true := h e (by simp)
      have ht : ∀ x ∈ t, passive x = true := fun x hx => h x (by simp [hx])
      cases e with
      | rerender => simpa [runEvents, step] using ih s ht h0
      | envResize w hh =>
          have hl : ¬ (s.listeners > 0) := by omega
          simpa [runEvents, step, hl] using
            ih { s with env := ⟨w, hh⟩ } ht (by simpa using h0)
      | effectMount => simp [passive] at he
      | cleanup => simp [passive] at he

/-- C1: for every width, exactly one of the four convenience flags
`isMobile, isTablet, isDesktop, isWide` returned by `useResponsive` is
true, and the true flag is the one whose name agrees with the value of
`breakpoint` at that width. -/
theorem useResponsive_flag_partition (d : Dimensions) :
    ((useResponsive d).isMobile.toNat + (useResponsive d).isTablet.toNat
      + (useResponsive d).isDesktop.toNat + (useResponsive d).isWide.toNat = 1) ∧
    ((useResponsive d).isMobile = true ↔ (useResponsive d).breakpoint = .mobile) ∧
    ((useResponsive d).isTablet = true ↔ (useResponsive d).breakpoint = .tablet) ∧
    ((useResponsive d).isDesktop = true ↔ (useResponsive d).breakpoint = .desktop) ∧
    ((useResponsive d).isWide = true ↔ (useResponsive d).breakpoint = .wide) := by
  by_cases h1 : d.width < 768 <;> by_cases h2 : d.width < 1024 <;>
    by_cases h3 : d.width < 1280 <;>
      simp [useResponsive, isMobile, isTablet, isDesktop, isWide, breakpoint,
        BREAKPOINTS, ge_iff_le, ← not_lt, decide_not, h1, h2, h3] <;> omega

/-- C2: `breakpoint` classifies widths with half-open boundaries on the
lower end: 767 is mobile, 768 tablet, 1023 tablet, 1024 desktop, 1279
desktop, 1280 wide; in general a width exactly equal to a threshold
belongs to the higher tier, at any height. -/
theorem breakpoint_boundaries (h : Int) :
    breakpoint ⟨767, h⟩ = .mobile ∧ breakpoint ⟨768, h⟩ = .tablet ∧
    breakpoint ⟨1023, h⟩ = .tablet ∧ breakpoint ⟨1024, h⟩ = .desktop ∧
    breakpoint ⟨1279, h⟩ = .desktop ∧ breakpoint ⟨1280, h⟩ = .wide ∧
    breakpoint ⟨BREAKPOINTS .mobile, h⟩ = .tablet ∧
    breakpoint ⟨BREAKPOINTS .tablet, h⟩ = .desktop ∧
    breakpoint ⟨BREAKPOINTS .desktop, h⟩ = .wide := by
  refine ⟨?_, ?_, ?_, ?_, ?_, ?_, ?_, ?_, ?_⟩ <;> simp [breakpoint, BREAKPOINTS]

/-- C3: for every breakpoint argument (name or pixel number) and every
stored width, `isAbove` is the exact boolean complement of `isBelow`: it
is true exactly where `isBelow` is false, so no width satisfies both or
neither. -/
theorem isAbove_not_isBelow (d : Dimensions) (b : BreakpointArg) :
    isAbove d b = !(isBelow d b) ∧
    (isAbove d b = true ↔ ¬ (isBelow d b = true)) := by
  constructor
  · simp only [isAbove, isBelow, ge_iff_le, ← not_lt, decide_not]
  · simp only [isAbove, isBelow, ge_iff_le, decide_eq_true_eq]
    exact not_lt.symm

/-- C4: `isBetween bmin bmax` holds exactly when
`resolve bmin ≤ width < resolve bmax` (it is a total function, so it never
raises), and whenever the range is empty or inverted
(`resolve bmin ≥ resolve bmax`) it is false at every width, with no
validation performed; concretely, `isBetween tablet desktop` is true at
width 1024 and false at widths 1023 and 1280. -/
theorem isBetween_range (d : Dimensions) (bmin bmax : BreakpointArg) :
    (isBetween d bmin bmax = true ↔
      getBreakpointValue bmin ≤ d.width ∧ d.width < getBreakpointValue bmax) ∧
    (getBreakpointValue bmax ≤ getBreakpointValue bmin →
      isBetween d bmin bmax = false) ∧
    isBetween ⟨1024, 0⟩ (.name .tablet) (.name .desktop) = true ∧
    isBetween ⟨1023, 0⟩ (.name .tablet) (.name .desktop) = false ∧
    isBetween ⟨1280, 0⟩ (.name .tablet) (.name .desktop) = false := by
  refine ⟨?_, ?_, by decide, by decide, by decide⟩
  · simp [isBetween, ge_iff_le]
  · intro hle
    simp only [isBetween, ge_iff_le, Bool.and_eq_false_iff, decide_eq_false_iff_not, not_le,
      not_lt]
    omega

/-- C4 witness: an empty range (`tablet, tablet`) is false at a concrete
width. -/
theorem isBetween_range_witness :
    isBetween ⟨1024, 0⟩ (.name .tablet) (.name .tablet) = false :=
  (isBetween_range ⟨1024, 0⟩ (.name .tablet) (.name .tablet)).2.1 (by decide)

/-- C5: `breakpoint` is monotonically non-decreasing in tier order as the
width increases: whenever `w1 ≤ w2`, the tier at `w1` is at most the tier
at `w2` in the order mobile < tablet < desktop < wide. -/
theorem breakpoint_monotone (d1 d2 : Dimensions) (hw : d1.width ≤ d2.width) :
    tierIdx (breakpoint d1) ≤ tierIdx (breakpoint d2) := by
  simp only [breakpoint, BREAKPOINTS]
  split_ifs <;> simp [tierIdx] <;> omega

/-- C5 witness: concrete widths 700 ≤ 1300. -/
theorem breakpoint_monotone_witness :
    tierIdx (breakpoint ⟨700, 0⟩) ≤ tierIdx (breakpoint ⟨1300, 0⟩) :=
  breakpoint_monotone ⟨700, 0⟩ ⟨1300, 0⟩ (by decide)

/-- C9: `breakpoint`, the four flags, and the query callbacks depend only
on the stored width, never on the height: two states with equal width and
arbitrary heights give equal outputs for all arguments. -/
theorem queries_depend_only_on_width (d1 d2 : Dimensions)
    (hw : d1.width = d2.width) :
    breakpoint d1 = breakpoint d2 ∧
    isMobile d1 = isMobile d2 ∧ isTablet d1 = isTablet d2 ∧
    isDesktop d1 = isDesktop d2 ∧ isWide d1 = isWide d2 ∧
    (∀ b, isBelow d1 b = isBelow d2 b) ∧
    (∀ b, isAbove d1 b = isAbove d2 b) ∧
    (∀ bmin bmax, isBetween d1 bmin bmax = isBetween d2 bmin bmax) := by
  simp [breakpoint, isMobile, isTablet, isDesktop, isWide, isBelow, isAbove,
    isBetween, hw]

/-- C9 witness: equal width 800, heights 100 and 999. -/
theorem queries_depend_only_on_width_witness :
    breakpoint ⟨800, 100⟩ = breakpoint ⟨800, 999⟩ :=
  (queries_depend_only_on_width ⟨800, 100⟩ ⟨800, 999⟩ rfl).1

/-- C10: in the not-yet-measured sentinel state (`width = 0, height = 0`
from `useState`), `breakpoint` is mobile, `isMobile` is true, and
`isBelow` is true for every breakpoint name; a genuinely zero-width
viewport at any height is classified identically to the sentinel, with no
distinguished unmeasured output. -/
theorem zero_sentinel_is_mobile :
    breakpoint initialDimensions = .mobile ∧
    isMobile initialDimensions = true ∧
    (∀ b : BreakpointName, isBelow initialDimensions (.name b) = true) ∧
    (∀ h : Int, breakpoint ⟨0, h⟩ = breakpoint initialDimensions ∧
      isMobile ⟨0, h⟩ = isMobile initialDimensions ∧
      isTablet ⟨0, h⟩ = isTablet initialDimensions ∧
      isDesktop ⟨0, h⟩ = isDesktop initialDimensions ∧
      isWide ⟨0, h⟩ = isWide initialDimensions ∧
      ∀ b, isBelow ⟨0, h⟩ b = isBelow initialDimensions b) := by
  refine ⟨by decide, by decide, fun b => by cases b <;> decide, fun h => ?_⟩
  simp [breakpoint, isMobile, isTablet, isDesktop, isWide, isBelow,
    initialDimensions]

/-- C6: the mount effect performs one synchronous measurement of the
window's current size and stores it before any resize notification
arrives: for any window, and in particular for a 1000×600 window, the
stored dimensions right after the mount effect equal the window size,
with no `envResize` event in the trace. -/
theorem mount_measures_synchronously (e : Env) :
    (runEvents (initWorld e) [HookEvent.effectMount]).dims =
      ⟨e.innerWidth, e.innerHeight⟩ ∧
    (runEvents (initWorld ⟨1000, 600⟩) [HookEvent.effectMount]).dims =
      ⟨1000, 600⟩ :=
  ⟨rfl, rfl⟩

/-- C7: the hook subscribes exactly once on activation and unsubscribes
exactly once on deactivation: across any number of re-renders and resizes
the listener count stays 1, after cleanup it is 0, and from then on
further resize notifications from the window never change the stored
dimensions (and, the step function being total, never throw). -/
theorem subscription_paired_exactly_once (e : Env) (mid tail : List HookEvent)
    (hmid : ∀ ev ∈ mid, passive ev = true)
    (htail : ∀ ev ∈ tail, passive ev = true) :
    (runEvents (initWorld e) (HookEvent.effectMount :: mid)).listeners = 1 ∧
    (runEvents (initWorld e)
      (HookEvent.effectMount :: (mid ++ [HookEvent.cleanup]))).listeners = 0 ∧
    (runEvents (initWorld e)
        ((HookEvent.effectMount :: (mid ++ [HookEvent.cleanup])) ++ tail)).dims =
      (runEvents (initWorld e)
        (HookEvent.effectMount :: (mid ++ [HookEvent.cleanup]))).dims := by
  have hmount :
      runEvents (initWorld e) (HookEvent.effectMount :: mid) =
        runEvents (step (initWorld e) .effectMount) mid := rfl
  have h1 : (runEvents (initWorld e) (HookEvent.effectMount :: mid)).listeners = 1 := by
    rw [hmount, listeners_runEvents_passive mid _ hmid]
    rfl
  have hsplit :
      runEvents (initWorld e) (HookEvent.effectMount :: (mid ++ [HookEvent.cleanup])) =
        step (runEvents (initWorld e) (HookEvent.effectMount :: mid)) .cleanup := by
    simp [runEvents, List.foldl_append]
  have h0 : (runEvents (initWorld e)
      (HookEvent.effectMount :: (mid ++ [HookEvent.cleanup]))).listeners = 0 := by
    rw [hsplit]
    simp [step, h1]
  have htl :
      runEvents (initWorld e)
          ((HookEvent.effectMount :: (mid ++ [HookEvent.cleanup])) ++ tail) =
        runEvents (runEvents (initWorld e)
          (HookEvent.effectMount :: (mid ++ [HookEvent.cleanup]))) tail := by
    simp [runEvents, List.foldl_append]
  refine ⟨h1, h0, ?_⟩
  rw [htl]
  exact dims_runEvents_passive_zero tail _ htail h0

/-- C7 witness: one re-render and one resize while mounted, then cleanup,
then one more resize from the window. -/
theorem subscription_paired_exactly_once_witness :
    (runEvents (initWorld ⟨1000, 600⟩)
      (HookEvent.effectMount :: [HookEvent.rerender, HookEvent.envResize 500 300])).listeners = 1 ∧
    (runEvents (initWorld ⟨1000, 600⟩)
      (HookEvent.effectMount ::
        ([HookEvent.rerender, HookEvent.envResize 500 300] ++ [HookEvent.cleanup]))).listeners = 0 ∧
    (runEvents (initWorld ⟨1000, 600⟩)
        ((HookEvent.effectMount ::
          ([HookEvent.rerender, HookEvent.envResize 500 300] ++ [HookEvent.cleanup])) ++
          [HookEvent.envResize 50 60])).dims =
      (runEvents (initWorld ⟨1000, 600⟩)
        (HookEvent.effectMount ::
          ([HookEvent.rerender, HookEvent.envResize 500 300] ++ [HookEvent.cleanup]))).dims :=
  subscription_paired_exactly_once ⟨1000, 600⟩
    [HookEvent.rerender, HookEvent.envResize 500 300] [HookEvent.envResize 50 60]
    (by decide) (by decide)

/-- C8: every resize notification overwrites width and height together
with the observed window size, and the derived facts track the latest
value: firing resizes 500, 2000, 100 after mounting in a 1024×768 window
yields stored widths 500, 2000, 100 and breakpoints mobile, wide, mobile
in turn, with the height stored alongside each time. -/
theorem resize_sequence_tracks_latest :
    (runEvents (initWorld ⟨1024, 768⟩)
        [HookEvent.effectMount, HookEvent.envResize 500 600]).dims = ⟨500, 600⟩ ∧
    breakpoint (runEvents (initWorld ⟨1024, 768⟩)
        [HookEvent.effectMount, HookEvent.envResize 500 600]).dims = .mobile ∧
    (runEvents (initWorld ⟨1024, 768⟩)
        [HookEvent.effectMount, HookEvent.envResize 500 600,
          HookEvent.envResize 2000 600]).dims = ⟨2000, 600⟩ ∧
    breakpoint (runEvents (initWorld ⟨1024, 768⟩)
        [HookEvent.effectMount, HookEvent.envResize 500 600,
          HookEvent.envResize 2000 600]).dims = .wide ∧
    (runEvents (initWorld ⟨1024, 768⟩)
        [HookEvent.effectMount, HookEvent.envResize 500 600,
          HookEvent.envResize 2000 600, HookEvent.envResize 100 600]).dims = ⟨100, 600⟩ ∧
    breakpoint (runEvents (initWorld ⟨1024, 768⟩)
        [HookEvent.effectMount, HookEvent.envResize 500 600,
          HookEvent.envResize 2000 600, HookEvent.envResize 100 600]).dims = .mobile := by
  refine ⟨?_, ?_, ?_, ?_, ?_, ?_⟩ <;> decide

end DinoAir
